import Mathlib

/-!
Shallow embedding of the Flame Boss coordinator core
(custom_components/flameboss/coordinator.py and api.py).

JSON payload values are modelled by `JVal`.  After `json.loads`, JSON
`null` becomes Python `None`, and `dict.get` returns `None` for a missing
key as well, so both are modelled by `JVal.null`.  Python floats are
modelled by `ℚ` (the arithmetic in this program stays well inside the
exactly-representable range for the claims at hand).  Device-state
dictionary slots that only ever hold a float or `None` are modelled by
`Option ℚ`.
-/

/-- JSON value as decoded by `json.loads`.  `null` also stands for a missing
dictionary key, which Python's `dict.get` conflates with `None`. -/
inductive JVal where
  | null
  | bool (b : Bool)
  | num (q : ℚ)
  | str (s : String)
  | list (xs : List JVal)

/-- Python truthiness of a JSON value (`None`, `False`, `0`, `""` and `[]`
are falsy). -/
def pyTruthy : JVal → Bool
  | .null => false
  | .bool b => b
  | .num q => q != 0
  | .str s => s != ""
  | .list xs => !xs.isEmpty

/-- Python `v or d`. -/
def pyOr (v d : JVal) : JVal :=
  if pyTruthy v then v else d

/-- Value of a list of decimal digits. -/
def digitsToNat (cs : List Char) : Nat :=
  cs.foldl (fun a c => a * 10 + (c.toNat - 48)) 0

/-- Nonempty and all decimal digits. -/
def isDigits (cs : List Char) : Bool :=
  !cs.isEmpty && cs.all (fun c => c.isDigit)

/-- Python `int(s)` on a string: optional sign followed by digits.
(Python additionally strips whitespace and accepts `_` separators; those
forms do not occur in this development.) -/
def parseIntStr (s : String) : Option Int :=
  match s.data with
  | '-' :: rest => if isDigits rest then some (-(digitsToNat rest : Int)) else none
  | '+' :: rest => if isDigits rest then some ((digitsToNat rest : Int)) else none
  | cs => if isDigits cs then some ((digitsToNat cs : Int)) else none

/-- Unsigned decimal literal with an optional fractional part
(`"12"`, `"12.5"`, `"12."`, `".5"`). -/
def parseUnsignedFloatStr (cs : List Char) : Option ℚ :=
  let intPart := cs.takeWhile (fun c => c ≠ '.')
  match cs.dropWhile (fun c => c ≠ '.') with
  | [] => if isDigits intPart then some ((digitsToNat intPart : ℚ)) else none
  | '.' :: frac =>
      if intPart.all (fun c => c.isDigit) && frac.all (fun c => c.isDigit)
          && !(intPart.isEmpty && frac.isEmpty) then
        some ((digitsToNat intPart : ℚ) + (digitsToNat frac : ℚ) / (10 ^ frac.length))
      else none
  | _ => none

/-- Python `float(s)` on a string: optional sign and a decimal literal.
(Python additionally accepts whitespace, exponents, `inf`/`nan`; those
forms do not occur in this development.) -/
def parseFloatStr (s : String) : Option ℚ :=
  match s.data with
  | '-' :: rest => (parseUnsignedFloatStr rest).map (fun q => -q)
  | '+' :: rest => parseUnsignedFloatStr rest
  | cs => parseUnsignedFloatStr cs

/-- Truncation of a rational toward zero, as Python `int()` on a float. -/
def ratTrunc (q : ℚ) : Int :=
  if q < 0 then ⌈q⌉ else ⌊q⌋

/-- Python `int(v)`: truncates floats, converts bools, parses integer
strings, raises (= `none`) on `None` and lists. -/
def pyInt : JVal → Option Int
  | .null => none
  | .bool b => some (if b then 1 else 0)
  | .num q => some (ratTrunc q)
  | .str s => parseIntStr s
  | .list _ => none

/-- Python `float(v)`: identity on numbers, converts bools, parses numeric
strings, raises (= `none`) on `None` and lists. -/
def pyFloat : JVal → Option ℚ
  | .null => none
  | .bool b => some (if b then 1 else 0)
  | .num q => some q
  | .str s => parseFloatStr s
  | .list _ => none

/-- Python `v == b` for a bool `b` on the right (`True == 1` holds in
Python; bools never equal `None`, strings or lists). -/
def pyEqBool : JVal → Bool → Bool
  | .bool a, b => a == b
  | .num q, b => q == (if b then 1 else 0)
  | _, _ => false

/-- Python `v == "s"` for a string literal on the right: only equal
strings compare equal. -/
def isName (v : JVal) (s : String) : Bool :=
  match v with
  | .str t => t == s
  | _ => false

/-- Embedding of `_tenth_c_to_f` (coordinator.py): convert tenths of
Celsius to Fahrenheit; `None` input, the `-32767` sentinel and
unconvertible values give `None`. -/
def tenth_c_to_f (val : JVal) : Option ℚ :=
  match val with
  | .null => none
  | v =>
      match pyInt v with
      | none => none
      | some n =>
          if n = -32767 then none
          else
            match pyFloat v with
            | none => none
            | some q => some (q / 10 * 9 / 5 + 32)

/-- Python `round()` on a float: nearest integer, ties to even. -/
def pyRound (q : ℚ) : Int :=
  let fl := ⌊q⌋
  let frac := q - fl
  if frac < 1 / 2 then fl
  else if frac > 1 / 2 then fl + 1
  else if 2 ∣ fl then fl else fl + 1

/-- Embedding of `_f_to_tenth_c` (coordinator.py): Fahrenheit to tenths of
Celsius, rounded. -/
def f_to_tenth_c (f : ℚ) : Int :=
  pyRound ((f - 32) * 5 / 9 * 10)

/-- Per-device state dictionary of the coordinator.  Raw slots hold the
JSON values stored by the reducer; derived slots only ever hold a float or
`None`.  A key that the code never wrote is conflated with a key holding
`None` (the code only reads these slots through `dict.get`). -/
structure DeviceState where
  cook_id : JVal := .null
  sec : JVal := .null
  pit_tenth_c : JVal := .null
  meat1_tenth_c : JVal := .null
  meat2_tenth_c : JVal := .null
  meat3_tenth_c : JVal := .null
  set_temp : JVal := .null
  blower : JVal := .null
  pit_temp : Option ℚ := none
  meat_1 : Option ℚ := none
  meat_2 : Option ℚ := none
  meat_3 : Option ℚ := none
  set_temp_f : Option ℚ := none
  blower_pct : Option ℚ := none
  online : JVal := .null
  hw_id : JVal := .null
  app : JVal := .null

/-- Fresh device entry: the empty dictionary `{}`. -/
def emptyDev : DeviceState := {}

/-- Incoming MQTT payload restricted to the keys the coordinator reads;
each slot is `.null` when the key is missing or JSON `null`. -/
structure Payload where
  name : JVal := .null
  temps : JVal := .null
  cook_id : JVal := .null
  sec : JVal := .null
  set_temp : JVal := .null
  blower : JVal := .null
  hw_id : JVal := .null
  app : JVal := .null

/-- Python `len()`/indexing support: lists are sized, and a string behaves
as a list of one-character strings; other values raise `TypeError`. -/
def pySized : JVal → Option (List JVal)
  | .list xs => some xs
  | .str s => some (s.data.map (fun c => .str (String.mk [c])))
  | _ => none

/-- Python `ts[i] if len(ts) > i else None`. -/
def elemOrNone (ts : List JVal) (i : Nat) : JVal :=
  match ts.get? i with
  | some v => v
  | none => .null

/-- Embedding of the blower-percent computation of the `"temps"` branch:
`float(dev.get("blower") or 0.0)` clamped to `[0, 100]` after division by
100; an exception from `float()` stores `None`. -/
def blowerPct (b : JVal) : Option ℚ :=
  match pyFloat (pyOr b (.num 0)) with
  | some q => some (max 0 (min 100 (q / 100)))
  | none => none

/-- Embedding of `_on_mqtt_message._update` (coordinator.py): the
per-device reducer.  The derived slots are computed from the raw slots
just stored, which equal the corresponding payload fields.  When the
`temps` value supports neither `len` nor indexing the task raises before
committing, so the stored state is unchanged (`none` branch of
`pySized`). -/
def update (dev : DeviceState) (p : Payload) : DeviceState :=
  if isName p.name ("temps") then
    match pySized (pyOr p.temps (.list [])) with
    | none => dev
    | some ts =>
        { dev with
          cook_id := p.cook_id
          sec := p.sec
          pit_tenth_c := elemOrNone ts 0
          meat1_tenth_c := elemOrNone ts 1
          meat2_tenth_c := elemOrNone ts 2
          meat3_tenth_c := elemOrNone ts 3
          set_temp := p.set_temp
          blower := p.blower
          pit_temp := tenth_c_to_f (elemOrNone ts 0)
          meat_1 := tenth_c_to_f (elemOrNone ts 1)
          meat_2 := tenth_c_to_f (elemOrNone ts 2)
          meat_3 := tenth_c_to_f (elemOrNone ts 3)
          set_temp_f := tenth_c_to_f p.set_temp
          blower_pct := blowerPct p.blower
          online := .bool true }
  else if isName p.name ("versions") then
    { dev with
      hw_id := p.hw_id
      app := p.app
      online := .bool true }
  else dev

/-- Embedding of the per-device body of `_offline_check` (coordinator.py):
`is_online = (now - last) <= 15.0`; the flag is rewritten whenever the
stored value differs from it under Python `!=`. -/
def offline_check_dev (now last : ℚ) (dev : DeviceState) : DeviceState :=
  let is_online := decide (now - last ≤ 15)
  if pyEqBool dev.online is_online then dev
  else { dev with online := .bool is_online }

/-- Result of one call to `async_set_pit_setpoint_f` (coordinator.py):
the rate-limit map afterwards, the tenths-Celsius command handed to the
MQTT publish (`none` when the call was dropped), and whether an exception
escaped the call. -/
structure SetpointRun where
  last : Int → ℚ
  sent : Option Int
  raised : Bool

/-- Embedding of `async_set_pit_setpoint_f` (coordinator.py).  `last` is
`_last_publish_monotonic` as a total map (missing entries read as `0.0`
via `dict.get(did, 0.0)`), `now` is `time.monotonic()`, and `busOk` says
whether `async_publish_set_temp_tenth_c` (api.py) completes without an
MQTT error.  The timestamp is recorded before the publish is awaited, and
neither function has a handler around the publish, so a bus error escapes
to the caller after the timestamp was already consumed. -/
def async_set_pit_setpoint_f (last : Int → ℚ) (now : ℚ) (device_id : Int)
    (setpoint_f : ℚ) (busOk : Bool) : SetpointRun :=
  if now - last device_id < 2 then
    { last := last, sent := none, raised := false }
  else
    { last := fun d => if d = device_id then now else last d
      sent := some (f_to_tenth_c setpoint_f)
      raised := !busOk }

/-- State of the debounced-notification machinery of `_schedule_refresh`
(coordinator.py): the `_pending_refresh` flag, the absolute fire time of
the armed `async_call_later` callback, and the delivery times of the
"state changed" notifications pushed so far. -/
structure DebounceState where
  pending : Bool
  timer : Option ℚ
  fired : List ℚ

/-- Debounce state before any mutation: flag clear, no timer armed. -/
def idleDebounce : DebounceState :=
  { pending := false, timer := none, fired := [] }

/-- Embedding of `_schedule_refresh` (coordinator.py) called at time `t`:
a no-op while a refresh is pending, otherwise it sets the flag and arms a
one-second timer. -/
def schedule_refresh (t : ℚ) (s : DebounceState) : DebounceState :=
  if s.pending then s
  else { s with pending := true, timer := some (t + 1) }

/-- Embedding of the `_do` callback firing at time `t`: when the armed
timer is due it clears the flag, disarms, and delivers one "state
changed" notification (`async_set_updated_data`). -/
def timer_fire (t : ℚ) (s : DebounceState) : DebounceState :=
  match s.timer with
  | some tf =>
      if tf = t then { pending := false, timer := none, fired := s.fired ++ [t] }
      else s
  | none => s

/-- Run a burst of mutations: each one calls `_schedule_refresh` at its
own timestamp. -/
def runBurst (ts : List ℚ) (s : DebounceState) : DebounceState :=
  ts.foldl (fun acc t => schedule_refresh t acc) s

/-- Payload of the documented telemetry scenario on device 123. -/
def scenarioPayload : Payload :=
  { name := .str ("temps")
    temps := .list [.num 250, .num 800, .num (-32767), .num (-32767)]
    set_temp := .num 260
    blower := .num 4500 }

/-- Truncation toward zero is the identity on integers. -/
theorem ratTrunc_intCast (n : ℤ) : ratTrunc ((n : ℚ)) = n := by
  unfold ratTrunc
  rcases lt_or_le ((n : ℚ)) 0 with h | h
  · rw [if_pos h, Int.ceil_intCast]
  · rw [if_neg (not_lt.mpr h), Int.floor_intCast]

/-- Closed form of the tenths-to-Fahrenheit conversion on non-sentinel
integers. -/
theorem tenth_c_to_f_intCast (n : ℤ) (hn : n ≠ -32767) :
    tenth_c_to_f (.num ((n : ℚ))) = some ((n : ℚ) / 10 * 9 / 5 + 32) := by
  simp [tenth_c_to_f, pyInt, pyFloat, ratTrunc_intCast, hn]

/-- Conversion of the sentinel gives an absent value. -/
theorem tenth_c_to_f_sentinel : tenth_c_to_f (.num (-32767)) = none := by
  have htr : ratTrunc ((-32767 : ℚ)) = -32767 := by
    rw [show ((-32767 : ℚ)) = (((-32767 : ℤ)) : ℚ) by norm_num]
    exact ratTrunc_intCast _
  simp [tenth_c_to_f, pyInt, htr]

/-- Claim C5: reducing the documented `"temps"` payload into any device
state yields pit 77 °F, meat-probe-1 176 °F, absent meat probes 2 and 3
(the `-32767` sentinel maps to an absent derived value), setpoint 78.8 °F,
blower 45 %, and `online = true`. -/
theorem temps_scenario_documented_state (dev : DeviceState) :
    (update dev scenarioPayload).pit_temp = some 77 ∧
    (update dev scenarioPayload).meat_1 = some 176 ∧
    (update dev scenarioPayload).meat_2 = none ∧
    (update dev scenarioPayload).meat_3 = none ∧
    (update dev scenarioPayload).set_temp_f = some (394 / 5) ∧
    (update dev scenarioPayload).blower_pct = some 45 ∧
    (update dev scenarioPayload).online = .bool true := by
  have e1 : (update dev scenarioPayload).pit_temp = tenth_c_to_f (.num 250) := rfl
  have e2 : (update dev scenarioPayload).meat_1 = tenth_c_to_f (.num 800) := rfl
  have e5 : (update dev scenarioPayload).set_temp_f = tenth_c_to_f (.num 260) := rfl
  have e6 : (update dev scenarioPayload).blower_pct = blowerPct (.num 4500) := rfl
  have h250 : tenth_c_to_f (.num 250) = some 77 := by
    rw [show ((250 : ℚ)) = (((250 : ℤ)) : ℚ) by norm_num,
      tenth_c_to_f_intCast 250 (by decide)]
    norm_num
  have h800 : tenth_c_to_f (.num 800) = some 176 := by
    rw [show ((800 : ℚ)) = (((800 : ℤ)) : ℚ) by norm_num,
      tenth_c_to_f_intCast 800 (by decide)]
    norm_num
  have h260 : tenth_c_to_f (.num 260) = some (394 / 5) := by
    rw [show ((260 : ℚ)) = (((260 : ℤ)) : ℚ) by norm_num,
      tenth_c_to_f_intCast 260 (by decide)]
    norm_num
  have h4500 : blowerPct (.num 4500) = some 45 := by
    simp only [blowerPct, pyOr, pyTruthy]
    norm_num [pyFloat, min_def, max_def]
  exact ⟨e1 ▸ h250, e2 ▸ h800, rfl, rfl, e5 ▸ h260, e6 ▸ h4500, rfl⟩

/-- Claim C8: a payload whose `name` discriminator is neither `"temps"`
nor `"versions"` leaves the device state unchanged; it is not an error. -/
theorem unknown_message_is_noop (dev : DeviceState) (p : Payload)
    (h1 : isName p.name ("temps") = false)
    (h2 : isName p.name ("versions") = false) :
    update dev p = dev := by
  simp [update, h1, h2]

/-- Witness for claim C8 at a concrete unknown discriminator. -/
theorem unknown_message_is_noop_witness :
    isName (JVal.str ("status")) ("temps") = false ∧
    isName (JVal.str ("status")) ("versions") = false ∧
    update emptyDev { name := .str ("status") } = emptyDev :=
  ⟨rfl, rfl, unknown_message_is_noop emptyDev { name := .str ("status") } rfl rfl⟩

/-- Claim C9: reducing the same `"temps"` payload twice in a row yields
the same device state as reducing it once. -/
theorem temps_reduction_idempotent (dev : DeviceState) (p : Payload)
    (h : isName p.name ("temps") = true) :
    update (update dev p) p = update dev p := by
  cases hm : pySized (pyOr p.temps (.list [])) with
  | none => simp [update, h, hm]
  | some ts => simp [update, h, hm]

/-- Witness for claim C9 at the documented scenario payload. -/
theorem temps_reduction_idempotent_witness :
    isName scenarioPayload.name ("temps") = true ∧
    update (update emptyDev scenarioPayload) scenarioPayload =
      update emptyDev scenarioPayload :=
  ⟨rfl, temps_reduction_idempotent emptyDev scenarioPayload rfl⟩

/-- Claim C6: for every tenths-Celsius integer other than the sentinel,
converting to Fahrenheit and back lands within one unit of the original
value (the round trip is in fact exact over exact arithmetic). -/
theorem tenth_c_roundtrip (v : ℤ) (hv : v ≠ -32767) (F : ℚ)
    (hF : tenth_c_to_f (.num ((v : ℚ))) = some F) :
    (f_to_tenth_c F - v).natAbs ≤ 1 := by
  rw [tenth_c_to_f_intCast v hv] at hF
  have hFeq : F = (v : ℚ) / 10 * 9 / 5 + 32 := (Option.some.inj hF).symm
  subst hFeq
  unfold f_to_tenth_c
  rw [show (((v : ℚ) / 10 * 9 / 5 + 32) - 32) * 5 / 9 * 10 = ((v : ℚ)) by ring]
  have hround : pyRound ((v : ℚ)) = v := by
    simp only [pyRound, Int.floor_intCast]
    norm_num
  rw [hround]
  simp

/-- Witness for claim C6 at 250 tenths of Celsius. -/
theorem tenth_c_roundtrip_witness :
    (250 : ℤ) ≠ -32767 ∧
    tenth_c_to_f (.num (((250 : ℤ) : ℚ))) = some 77 ∧
    (f_to_tenth_c 77 - 250).natAbs ≤ 1 := by
  have hF : tenth_c_to_f (.num (((250 : ℤ) : ℚ))) = some 77 := by
    rw [tenth_c_to_f_intCast 250 (by decide)]
    norm_num
  exact ⟨by decide, hF, tenth_c_roundtrip 250 (by decide) 77 hF⟩

/-- Counterexample to claim C1: a device whose flag is `False` while its
last message is 4 seconds old is switched to `online = True` by the
sweep, so the sweep does not leave it unchanged. -/
theorem offline_check_marks_online_cex :
    (offline_check_dev 4 0 { emptyDev with online := .bool false }).online = .bool true ∧
    ({ emptyDev with online := .bool false } : DeviceState).online = .bool false ∧
    offline_check_dev 4 0 { emptyDev with online := .bool false } ≠
      { emptyDev with online := .bool false } := by
  have hd : decide ((4 : ℚ) - 0 ≤ 15) = true := by norm_num
  have hpe : pyEqBool (JVal.bool false) (decide ((4 : ℚ) - 0 ≤ 15)) = false := by
    rw [hd]; rfl
  have h1 : (offline_check_dev 4 0 { emptyDev with online := .bool false }).online
      = .bool true := by
    simp only [offline_check_dev]
    rw [if_neg (by rw [hpe]; exact Bool.false_ne_true)]
    show JVal.bool (decide ((4 : ℚ) - 0 ≤ 15)) = .bool true
    rw [hd]
  refine ⟨h1, rfl, ?_⟩
  intro h
  have h2 := congrArg DeviceState.online h
  rw [h1] at h2
  exact Bool.noConfusion (JVal.bool.inj h2)

/-- Claim C1 amended: the sweep rewrites `online` to the freshness value
`(now - last) ≤ 15` whenever the stored flag differs from it under Python
equality, touching nothing else; beyond the threshold an online device
transitions to `False`, within the window an online device is left
untouched, but a device whose flag is not already equal to the freshness
value is also switched to `True` when a message arrived within the
window. -/
theorem offline_check_dev_spec (now last : ℚ) (dev : DeviceState) :
    (dev.online = .bool true → 15 < now - last →
        (offline_check_dev now last dev).online = .bool false) ∧
    (dev.online = .bool true → now - last ≤ 15 →
        offline_check_dev now last dev = dev) ∧
    (pyEqBool dev.online (decide (now - last ≤ 15)) = false →
        (offline_check_dev now last dev).online = .bool (decide (now - last ≤ 15)) ∧
        (offline_check_dev now last dev).hw_id = dev.hw_id ∧
        (offline_check_dev now last dev).app = dev.app ∧
        (offline_check_dev now last dev).pit_temp = dev.pit_temp ∧
        (offline_check_dev now last dev).set_temp_f = dev.set_temp_f ∧
        (offline_check_dev now last dev).blower_pct = dev.blower_pct) ∧
    (pyEqBool dev.online (decide (now - last ≤ 15)) = true →
        offline_check_dev now last dev = dev) := by
  refine ⟨?_, ?_, ?_, ?_⟩
  · intro ho h15
    have hd : decide (now - last ≤ 15) = false := decide_eq_false (not_le.mpr h15)
    have hpe : pyEqBool dev.online (decide (now - last ≤ 15)) = false := by
      rw [ho, hd]; rfl
    simp only [offline_check_dev]
    rw [if_neg (by rw [hpe]; exact Bool.false_ne_true)]
    show JVal.bool (decide (now - last ≤ 15)) = .bool false
    rw [hd]
  · intro ho h15
    have hd : decide (now - last ≤ 15) = true := decide_eq_true h15
    have hpe : pyEqBool dev.online (decide (now - last ≤ 15)) = true := by
      rw [ho, hd]; rfl
    simp only [offline_check_dev]
    rw [if_pos hpe]
  · intro hpe
    simp only [offline_check_dev]
    rw [if_neg (by rw [hpe]; exact Bool.false_ne_true)]
    exact ⟨rfl, rfl, rfl, rfl, rfl, rfl⟩
  · intro hpe
    simp only [offline_check_dev]
    rw [if_pos hpe]

/-- Witness for the amended claim C1: an online device with a
20-second-old last message is marked offline by the sweep. -/
theorem offline_check_dev_spec_witness :
    (offline_check_dev 20 0 { emptyDev with online := .bool true }).online = .bool false :=
  (offline_check_dev_spec 20 0 { emptyDev with online := .bool true }).1 rfl (by norm_num)

/-- Counterexample to claim C2: a `"temps"` payload with no `blower` key
yields a blower percentage of `0.0`, not an absent value. -/
theorem blower_missing_gives_zero_cex :
    (update emptyDev { name := .str ("temps"), temps := .list [.num 250] }).blower_pct
      = some 0 ∧
    (update emptyDev { name := .str ("temps"), temps := .list [.num 250] }).blower_pct
      ≠ none := by
  have hb : (update emptyDev { name := .str ("temps"), temps := .list [.num 250] }).blower_pct
      = blowerPct .null := rfl
  have hz : blowerPct .null = some 0 := by
    norm_num [blowerPct, pyOr, pyTruthy, pyFloat, min_def, max_def]
  rw [hb, hz]
  exact ⟨rfl, fun h => Option.noConfusion h⟩

/-- Claim C2 amended: in a `"temps"` reduction the blower percentage is
`clamp(raw / 100, 0, 100)` when the blower field is numeric, `0` when the
field is missing (or `null`), and absent exactly when the field is truthy
but not convertible by `float()`. -/
theorem blower_pct_reduction_spec (dev : DeviceState) (p : Payload) (ts : List JVal)
    (q : ℚ)
    (hname : isName p.name ("temps") = true)
    (hts : pySized (pyOr p.temps (.list [])) = some ts) :
    (p.blower = .num q → (update dev p).blower_pct = some (max 0 (min 100 (q / 100)))) ∧
    (p.blower = .null → (update dev p).blower_pct = some 0) ∧
    (pyTruthy p.blower = true → pyFloat p.blower = none →
      (update dev p).blower_pct = none) := by
  have hb : (update dev p).blower_pct = blowerPct p.blower := by
    simp only [update]
    rw [if_pos hname, hts]
  refine ⟨?_, ?_, ?_⟩
  · intro hq
    rw [hb, hq]
    by_cases h0 : q = 0
    · subst h0
      norm_num [blowerPct, pyOr, pyTruthy, pyFloat, min_def, max_def]
    · simp [blowerPct, pyOr, pyTruthy, pyFloat, h0]
  · intro hn
    rw [hb, hn]
    norm_num [blowerPct, pyOr, pyTruthy, pyFloat, min_def, max_def]
  · intro ht hf
    rw [hb]
    simp [blowerPct, pyOr, ht, hf]

/-- Witness for the amended claim C2 at a numeric blower value. -/
theorem blower_pct_reduction_spec_witness :
    (update emptyDev
      { name := .str ("temps"), temps := .list [], blower := .num 4500 }).blower_pct
      = some 45 := by
  have h := (blower_pct_reduction_spec emptyDev
      { name := .str ("temps"), temps := .list [], blower := .num 4500 } [] 4500
      rfl rfl).1 rfl
  rw [h]
  norm_num [min_def, max_def]

/-- Accepted setpoint request: resulting rate-limit map. -/
theorem sp_accept_last {last : Int → ℚ} {now : ℚ} {did : Int} {f : ℚ} {ok : Bool}
    (h : ¬(now - last did < 2)) :
    (async_set_pit_setpoint_f last now did f ok).last
      = fun d => if d = did then now else last d := by
  simp only [async_set_pit_setpoint_f]
  rw [if_neg h]

/-- Accepted setpoint request: the command is handed to the publish. -/
theorem sp_accept_sent {last : Int → ℚ} {now : ℚ} {did : Int} {f : ℚ} {ok : Bool}
    (h : ¬(now - last did < 2)) :
    (async_set_pit_setpoint_f last now did f ok).sent = some (f_to_tenth_c f) := by
  simp only [async_set_pit_setpoint_f]
  rw [if_neg h]

/-- Accepted setpoint request: an exception escapes iff the bus failed. -/
theorem sp_accept_raised {last : Int → ℚ} {now : ℚ} {did : Int} {f : ℚ} {ok : Bool}
    (h : ¬(now - last did < 2)) :
    (async_set_pit_setpoint_f last now did f ok).raised = !ok := by
  simp only [async_set_pit_setpoint_f]
  rw [if_neg h]

/-- Rate-limited setpoint request: nothing is published. -/
theorem sp_drop_sent {last : Int → ℚ} {now : ℚ} {did : Int} {f : ℚ} {ok : Bool}
    (h : now - last did < 2) :
    (async_set_pit_setpoint_f last now did f ok).sent = none := by
  simp only [async_set_pit_setpoint_f]
  rw [if_pos h]

/-- Rate-limited setpoint request: the rate-limit map is untouched. -/
theorem sp_drop_last {last : Int → ℚ} {now : ℚ} {did : Int} {f : ℚ} {ok : Bool}
    (h : now - last did < 2) :
    (async_set_pit_setpoint_f last now did f ok).last = last := by
  simp only [async_set_pit_setpoint_f]
  rw [if_pos h]

/-- Rate-limited setpoint request: no exception escapes. -/
theorem sp_drop_raised {last : Int → ℚ} {now : ℚ} {did : Int} {f : ℚ} {ok : Bool}
    (h : now - last did < 2) :
    (async_set_pit_setpoint_f last now did f ok).raised = false := by
  simp only [async_set_pit_setpoint_f]
  rw [if_pos h]

/-- Counterexample to claim C3: an accepted setpoint request whose MQTT
publish fails lets the error escape `async_set_pit_setpoint_f` (there is
no handler on the path, hence also no log entry). -/
theorem setpoint_publish_error_escapes_cex :
    (async_set_pit_setpoint_f (fun _ => 0) 10 1 225 false).raised = true ∧
    (async_set_pit_setpoint_f (fun _ => 0) 10 1 225 false).sent
      = some (f_to_tenth_c 225) := by
  have hlt : ¬((10 : ℚ) - (fun _ => (0 : ℚ)) 1 < 2) := by norm_num
  exact ⟨sp_accept_raised hlt, sp_accept_sent hlt⟩

/-- Claim C3 amended: a bus error during the publish of an accepted
setpoint request is not caught or logged by the coordinator and escapes
`async_set_pit_setpoint_f` to its caller; exactly one publish is
attempted (no retry), and the rate-limit timestamp stays recorded. -/
theorem setpoint_publish_error_spec (last : Int → ℚ) (now : ℚ) (did : Int) (f : ℚ)
    (h : 2 ≤ now - last did) :
    (async_set_pit_setpoint_f last now did f false).raised = true ∧
    (async_set_pit_setpoint_f last now did f false).sent = some (f_to_tenth_c f) ∧
    (async_set_pit_setpoint_f last now did f false).last did = now := by
  have hlt : ¬(now - last did < 2) := not_lt.mpr h
  refine ⟨sp_accept_raised hlt, sp_accept_sent hlt, ?_⟩
  rw [sp_accept_last hlt]
  show (if did = did then now else last did) = now
  rw [if_pos rfl]

/-- Witness for the amended claim C3. -/
theorem setpoint_publish_error_spec_witness :
    (async_set_pit_setpoint_f (fun _ => 0) 9 7 250 false).raised = true ∧
    (async_set_pit_setpoint_f (fun _ => 0) 9 7 250 false).sent
      = some (f_to_tenth_c 250) ∧
    (async_set_pit_setpoint_f (fun _ => 0) 9 7 250 false).last 7 = 9 :=
  setpoint_publish_error_spec (fun _ => 0) 9 7 250 (by norm_num)

/-- Claim C4: once a setpoint request for a device is accepted, a second
request for the same device less than 2 seconds later publishes nothing
and leaves the rate-limit map untouched, while a second request 2 or more
seconds later publishes as well; the stored timestamp of any other device
is unaffected by the accepted request. -/
theorem setpoint_rate_limit (last : Int → ℚ) (now1 now2 : ℚ) (did did2 : Int)
    (f1 f2 : ℚ) (ok1 ok2 : Bool)
    (h1 : 2 ≤ now1 - last did) :
    (async_set_pit_setpoint_f last now1 did f1 ok1).sent = some (f_to_tenth_c f1) ∧
    (now2 - now1 < 2 →
      (async_set_pit_setpoint_f (async_set_pit_setpoint_f last now1 did f1 ok1).last
          now2 did f2 ok2).sent = none ∧
      (async_set_pit_setpoint_f (async_set_pit_setpoint_f last now1 did f1 ok1).last
          now2 did f2 ok2).last
        = (async_set_pit_setpoint_f last now1 did f1 ok1).last) ∧
    (2 ≤ now2 - now1 →
      (async_set_pit_setpoint_f (async_set_pit_setpoint_f last now1 did f1 ok1).last
          now2 did f2 ok2).sent = some (f_to_tenth_c f2)) ∧
    (did2 ≠ did → (async_set_pit_setpoint_f last now1 did f1 ok1).last did2
      = last did2) := by
  have hlt1 : ¬(now1 - last did < 2) := not_lt.mpr h1
  have hr1did : (async_set_pit_setpoint_f last now1 did f1 ok1).last did = now1 := by
    rw [sp_accept_last hlt1]
    show (if did = did then now1 else last did) = now1
    rw [if_pos rfl]
  refine ⟨sp_accept_sent hlt1, ?_, ?_, ?_⟩
  · intro hfast
    have hc : now2 - (async_set_pit_setpoint_f last now1 did f1 ok1).last did < 2 := by
      rw [hr1did]; exact hfast
    exact ⟨sp_drop_sent hc, sp_drop_last hc⟩
  · intro hslow
    have hc : ¬(now2 - (async_set_pit_setpoint_f last now1 did f1 ok1).last did < 2) := by
      rw [hr1did]; exact not_lt.mpr hslow
    exact sp_accept_sent hc
  · intro hne
    rw [sp_accept_last hlt1]
    show (if did2 = did then now1 else last did2) = last did2
    rw [if_neg hne]

/-- Witness for claim C4: requests at 5 s and 6 s for device 1. -/
theorem setpoint_rate_limit_witness :
    (async_set_pit_setpoint_f (fun _ => 0) 5 1 225 true).sent
      = some (f_to_tenth_c 225) ∧
    (async_set_pit_setpoint_f (async_set_pit_setpoint_f (fun _ => 0) 5 1 225 true).last
        6 1 250 true).sent = none ∧
    (async_set_pit_setpoint_f (fun _ => 0) 5 1 225 true).last 2 = 0 := by
  have h := setpoint_rate_limit (fun _ => 0) 5 6 1 2 225 250 true true (by norm_num)
  exact ⟨h.1, (h.2.1 (by norm_num)).1, h.2.2.2 (by decide)⟩

/-- Claim C10: the rate-limit timestamp is recorded before the publish is
awaited, so a failed publish still consumes the 2-second window: a second
request for the same device within 2 seconds is dropped even though no
command reached the bus. -/
theorem rate_window_consumed_on_failure (last : Int → ℚ) (now1 now2 : ℚ)
    (did : Int) (f1 f2 : ℚ) (ok2 : Bool)
    (h1 : 2 ≤ now1 - last did) (h2 : now2 - now1 < 2) :
    (async_set_pit_setpoint_f last now1 did f1 false).raised = true ∧
    (async_set_pit_setpoint_f last now1 did f1 false).last did = now1 ∧
    (async_set_pit_setpoint_f (async_set_pit_setpoint_f last now1 did f1 false).last
        now2 did f2 ok2).sent = none := by
  have hlt1 : ¬(now1 - last did < 2) := not_lt.mpr h1
  have hr1did : (async_set_pit_setpoint_f last now1 did f1 false).last did = now1 := by
    rw [sp_accept_last hlt1]
    show (if did = did then now1 else last did) = now1
    rw [if_pos rfl]
  have hc : now2 - (async_set_pit_setpoint_f last now1 did f1 false).last did < 2 := by
    rw [hr1did]; exact h2
  exact ⟨sp_accept_raised hlt1, hr1did, sp_drop_sent hc⟩

/-- Witness for claim C10: the failed request at 5 s still blocks the
request at 6 s. -/
theorem rate_window_consumed_on_failure_witness :
    (async_set_pit_setpoint_f (fun _ => 0) 5 3 225 false).raised = true ∧
    (async_set_pit_setpoint_f (fun _ => 0) 5 3 225 false).last 3 = 5 ∧
    (async_set_pit_setpoint_f (async_set_pit_setpoint_f (fun _ => 0) 5 3 225 false).last
        6 3 250 true).sent = none :=
  rate_window_consumed_on_failure (fun _ => 0) 5 6 3 225 250 true
    (by norm_num) (by norm_num)

/-- While the pending flag is set, further mutations do not change the
debounce state: no second timer is armed and the armed timer keeps its
fire time. -/
theorem runBurst_pending_noop (ts : List ℚ) (s : DebounceState)
    (h : s.pending = true) :
    runBurst ts s = s := by
  induction ts generalizing s with
  | nil => rfl
  | cons t rest ih =>
      show runBurst rest (schedule_refresh t s) = s
      have hs : schedule_refresh t s = s := by
        simp only [schedule_refresh]
        rw [if_pos h]
      rw [hs]
      exact ih s h

/-- Claim C7: a burst whose first mutation arms the debounce timer and
whose later mutations all run while it is pending yields exactly one
"state changed" notification, delivered exactly 1 second after the first
mutation (so at least 1 and less than 2 seconds after it); the later
mutations neither arm a second timer nor reset the pending one. -/
theorem debounce_single_notification (t0 : ℚ) (ts : List ℚ) :
    runBurst ts (schedule_refresh t0 idleDebounce) =
      { pending := true, timer := some (t0 + 1), fired := [] } ∧
    timer_fire (t0 + 1) (runBurst ts (schedule_refresh t0 idleDebounce)) =
      { pending := false, timer := none, fired := [t0 + 1] } ∧
    (timer_fire (t0 + 1) (runBurst ts (schedule_refresh t0 idleDebounce))).fired.length
      = 1 ∧
    1 ≤ (t0 + 1) - t0 ∧ (t0 + 1) - t0 < 2 := by
  have h0 : schedule_refresh t0 idleDebounce =
      { pending := true, timer := some (t0 + 1), fired := [] } := by
    simp only [schedule_refresh, idleDebounce]
    rw [if_neg (by exact Bool.false_ne_true)]
  have h1 : runBurst ts (schedule_refresh t0 idleDebounce) =
      { pending := true, timer := some (t0 + 1), fired := [] } := by
    rw [h0]
    exact runBurst_pending_noop ts _ rfl
  have h2 : timer_fire (t0 + 1)
      ({ pending := true, timer := some (t0 + 1), fired := [] } : DebounceState) =
      { pending := false, timer := none, fired := [t0 + 1] } := by
    simp only [timer_fire]
    rw [if_pos trivial]
    rfl
  refine ⟨h1, ?_, ?_, by norm_num, by norm_num⟩
  · rw [h1, h2]
  · rw [h1, h2]
    rfl
